import Mathlib

/-!
Verification development for the floating-ui `inner` list-anchoring
middleware and its scroll/touch gesture controllers
(`packages/react-dom-interactions/src/inner.ts`).

JavaScript numbers are modelled as rationals (`ℚ`); the exponential
momentum-decay simulation, which genuinely uses `Math.exp`, is modelled
over the reals (`ℝ`).  DOM reads (`scrollHeight`, `offsetHeight`,
`clientHeight`, `scrollTop`) are fields of an explicit element state;
DOM writes are explicit state updates.  `detectOverflow` is an external
collaborator of the middleware (it lives in the core package, outside
these sources), so it is kept as a universally quantified parameter.
-/

/-- The `__DEV__` build flag; the sources under verification are the
development build, where diagnostic warnings are emitted. -/
def __DEV__ : Bool := true

/-- Signed overflow distances on each side (`SideObject` in the
source): positive means the element overflows the boundary on that
side, negative means clearance remains. -/
structure SideObject (α : Type) where
  top : α
  right : α
  bottom : α
  left : α
deriving DecidableEq

/-- An axis-aligned rectangle (`Rect`). -/
structure Rect where
  x : ℚ
  y : ℚ
  width : ℚ
  height : ℚ
deriving DecidableEq

/-- The reference/floating rectangle pair threaded through the
middleware pipeline. -/
structure Rects where
  reference : Rect
  floating : Rect
deriving DecidableEq

/-- The mutable DOM state of the floating element that the `inner`
middleware reads and writes.  `styleMaxHeight = none` models the empty
`style.maxHeight` string (falsy); `some v` models the string `"<v>px"`
(truthy, including `"0px"`). -/
structure FloatingElem where
  styleMaxHeight : Option ℚ
  scrollTop : ℚ
  scrollHeight : ℚ
  offsetHeight : ℚ
  clientHeight : ℚ
deriving DecidableEq

/-- The geometry of a list item read by the middleware
(`item.offsetTop`, `item.offsetHeight`). -/
structure Item where
  offsetTop : ℚ
  offsetHeight : ℚ
deriving DecidableEq

/-- Which element `detectOverflow` is asked about
(`elementContext: 'floating' | 'reference'`). -/
inductive ElemCtx
  | floating
  | reference
deriving DecidableEq

/-- The arguments the `inner` middleware passes to `detectOverflow`
that vary between its three call sites.  The remaining
`detectOverflowOptions` are identical at every call site and are
absorbed into the detector function itself. -/
structure DetectArgs where
  x : ℚ
  y : ℚ
  rects : Rects
  elementContext : ElemCtx
deriving DecidableEq

/-- The positional part of the middleware arguments
(`middlewareArguments`).  `placementStartsWithBottom` models the one
query the middleware makes of the placement string,
`placement.startsWith('bottom')`. -/
structure MiddlewareArgs where
  x : ℚ
  y : ℚ
  rects : Rects
  placementStartsWithBottom : Bool
deriving DecidableEq

/-- The partial update a middleware returns: optional new coordinates
and the `reset: {rects: true}` signal. -/
structure MiddlewareResult where
  x : Option ℚ
  y : Option ℚ
  resetRects : Bool
deriving DecidableEq

/-- The two `console.warn` diagnostics the middleware can emit in
development builds. -/
inductive InnerWarning
  | placementNotBottom
  | itemMissing
deriving DecidableEq

/-- The side effects of one `inner` middleware pass: the floating
element's updated DOM state, the warnings emitted, the arguments of the
`onFallbackChange` invocations (in order), and the value written to the
overflow ref, if any. -/
structure InnerEffects where
  floating : FloatingElem
  warnings : List InnerWarning
  fallbackCalls : List Bool
  overflowWrite : Option (SideObject ℚ)
deriving DecidableEq

/-- The options of the `inner` middleware.  `hasOnFallbackChange` and
`hasOverflowRef` record whether the optional callback/ref were
supplied; `list` is `listRef.current` (entries may be `null`). -/
structure InnerOptions where
  list : List (Option Item)
  index : ℕ
  hasOnFallbackChange : Bool
  innerOffset : ℚ
  hasOverflowRef : Bool
  minItemsVisible : ℚ
  referenceOverflowThreshold : ℚ
deriving DecidableEq

/-- `listRef.current[index]`: out-of-range access yields `undefined`,
and an in-range entry may itself be `null`; both are `none`. -/
def listItem (l : List (Option Item)) (i : ℕ) : Option Item :=
  l.getD i none

/-- Coordinates produced by the `offset` middleware. -/
structure Coords where
  x : ℚ
  y : ℚ
deriving DecidableEq

/-- Modelled from the spec: the `offset` middleware (imported from the
core package, whose source is not part of these files) applies a
one-dimensional offset adjustment along the main axis; for the
`bottom` placement required by `inner` it adds the value to `y` and
leaves `x` unchanged. -/
def offsetFn (value : ℚ) (args : MiddlewareArgs) : Coords :=
  ⟨args.x, args.y + value⟩

/-- One pass of the `inner` middleware (`inner(options).fn`), with
`detect` standing for `detectOverflow` specialised to the fixed
`detectOverflowOptions`.  Returns the partial update and the pass's
side effects. -/
def innerFn (opts : InnerOptions) (detect : DetectArgs → SideObject ℚ)
    (args : MiddlewareArgs) (el : FloatingElem) :
    MiddlewareResult × InnerEffects :=
  if el.styleMaxHeight.isSome then
    (⟨none, none, true⟩, ⟨{el with styleMaxHeight := none}, [], [], none⟩)
  else
    let placementWarnings :=
      if __DEV__ && !args.placementStartsWithBottom then
        [InnerWarning.placementNotBottom]
      else []
    match listItem opts.list opts.index with
    | none =>
      (⟨none, none, false⟩,
       ⟨el,
        placementWarnings ++ (if __DEV__ then [InnerWarning.itemMissing] else []),
        [], none⟩)
    | some item =>
      let candidate :=
        -item.offsetTop - args.rects.reference.height / 2 -
          item.offsetHeight / 2 - opts.innerOffset
      let next := offsetFn candidate args
      let overflow := detect ⟨next.x, next.y, args.rects, ElemCtx.floating⟩
      let refOverflow := detect ⟨next.x, next.y, args.rects, ElemCtx.reference⟩
      let diffY := max 0 overflow.top
      let nextY := next.y + diffY
      let maxHeight := max 0 (el.scrollHeight - diffY - max 0 overflow.bottom)
      let el2 := {el with styleMaxHeight := some maxHeight, scrollTop := diffY}
      let fallbackValue :=
        decide (el2.offsetHeight <
          item.offsetHeight * min opts.minItemsVisible (opts.list.length : ℚ) - 1) ||
        decide (refOverflow.top ≥ -opts.referenceOverflowThreshold) ||
        decide (refOverflow.bottom ≥ -opts.referenceOverflowThreshold)
      let fallbackCalls := if opts.hasOnFallbackChange then [fallbackValue] else []
      let overflowWrite :=
        if opts.hasOverflowRef then
          some (detect ⟨next.x, nextY,
            {args.rects with
              floating := {args.rects.floating with height := el2.offsetHeight}},
            ElemCtx.floating⟩)
        else none
      (⟨none, some nextY, false⟩, ⟨el2, placementWarnings, fallbackCalls, overflowWrite⟩)

/-- Claim C10: the `inner` middleware never modifies the pipeline's x
coordinate: every branch (reset, missing item, normal alignment)
returns a partial update with no x field. -/
theorem inner_never_writes_x (opts : InnerOptions)
    (detect : DetectArgs → SideObject ℚ) (args : MiddlewareArgs)
    (el : FloatingElem) : (innerFn opts detect args el).1.x = none := by
  unfold innerFn
  split
  · rfl
  · dsimp only
    split <;> rfl

/-- Claim C5: when the floating element's `maxHeight` style is
non-empty at entry, the pass clears it and returns exactly
`{reset: {rects: true}}`: no x or y update, no warning, no fallback
call, no overflow-ref write, and no other element mutation. -/
theorem inner_reset_pass (opts : InnerOptions)
    (detect : DetectArgs → SideObject ℚ) (args : MiddlewareArgs)
    (el : FloatingElem) (v : ℚ) (h : el.styleMaxHeight = some v) :
    innerFn opts detect args el =
      (⟨none, none, true⟩, ⟨{el with styleMaxHeight := none}, [], [], none⟩) := by
  unfold innerFn
  rw [if_pos (by simp [h])]

/-- Witness for C5 at a concrete input. -/
theorem inner_reset_pass_witness :
    ({ styleMaxHeight := some 120, scrollTop := 0, scrollHeight := 300,
       offsetHeight := 120, clientHeight := 120 } : FloatingElem).styleMaxHeight
        = some 120 ∧
    innerFn ⟨[], 0, false, 0, false, 4, 0⟩ (fun _ => ⟨0, 0, 0, 0⟩)
        ⟨0, 0, ⟨⟨0, 0, 10, 10⟩, ⟨0, 0, 10, 10⟩⟩, true⟩
        ⟨some 120, 0, 300, 120, 120⟩ =
      (⟨none, none, true⟩, ⟨⟨none, 0, 300, 120, 120⟩, [], [], none⟩) :=
  ⟨rfl, inner_reset_pass _ _ _ _ 120 rfl⟩

/-- Claim C6: when the item list has no element at the requested index
(out of range or a null entry) and no reset is pending, the middleware
emits the missing-item warning and returns an empty update: no
coordinate change, no element mutation, no fallback call and no
overflow-ref write.  (The model is a total function, so the pass never
throws.) -/
theorem inner_missing_item (opts : InnerOptions)
    (detect : DetectArgs → SideObject ℚ) (args : MiddlewareArgs)
    (el : FloatingElem) (hmh : el.styleMaxHeight = none)
    (hitem : listItem opts.list opts.index = none) :
    (innerFn opts detect args el).1 = ⟨none, none, false⟩ ∧
    (innerFn opts detect args el).2.floating = el ∧
    (innerFn opts detect args el).2.fallbackCalls = [] ∧
    (innerFn opts detect args el).2.overflowWrite = none ∧
    InnerWarning.itemMissing ∈ (innerFn opts detect args el).2.warnings := by
  unfold innerFn
  rw [if_neg (by simp [hmh])]
  dsimp only
  rw [hitem]
  refine ⟨rfl, rfl, rfl, rfl, ?_⟩
  simp [__DEV__]

/-- Witness for C6 at a concrete input. -/
theorem inner_missing_item_witness :
    (⟨none, 0, 300, 120, 120⟩ : FloatingElem).styleMaxHeight = none ∧
    listItem ([] : List (Option Item)) 3 = none ∧
    ((innerFn ⟨[], 3, true, 0, true, 4, 0⟩ (fun _ => ⟨0, 0, 0, 0⟩)
        ⟨0, 0, ⟨⟨0, 0, 10, 10⟩, ⟨0, 0, 10, 10⟩⟩, true⟩
        ⟨none, 0, 300, 120, 120⟩).1 = ⟨none, none, false⟩ ∧
      (innerFn ⟨[], 3, true, 0, true, 4, 0⟩ (fun _ => ⟨0, 0, 0, 0⟩)
        ⟨0, 0, ⟨⟨0, 0, 10, 10⟩, ⟨0, 0, 10, 10⟩⟩, true⟩
        ⟨none, 0, 300, 120, 120⟩).2.floating = ⟨none, 0, 300, 120, 120⟩ ∧
      (innerFn ⟨[], 3, true, 0, true, 4, 0⟩ (fun _ => ⟨0, 0, 0, 0⟩)
        ⟨0, 0, ⟨⟨0, 0, 10, 10⟩, ⟨0, 0, 10, 10⟩⟩, true⟩
        ⟨none, 0, 300, 120, 120⟩).2.fallbackCalls = [] ∧
      (innerFn ⟨[], 3, true, 0, true, 4, 0⟩ (fun _ => ⟨0, 0, 0, 0⟩)
        ⟨0, 0, ⟨⟨0, 0, 10, 10⟩, ⟨0, 0, 10, 10⟩⟩, true⟩
        ⟨none, 0, 300, 120, 120⟩).2.overflowWrite = none ∧
      InnerWarning.itemMissing ∈
        (innerFn ⟨[], 3, true, 0, true, 4, 0⟩ (fun _ => ⟨0, 0, 0, 0⟩)
          ⟨0, 0, ⟨⟨0, 0, 10, 10⟩, ⟨0, 0, 10, 10⟩⟩, true⟩
          ⟨none, 0, 300, 120, 120⟩).2.warnings) :=
  ⟨rfl, rfl, inner_missing_item _ _ _ _ rfl rfl⟩

/-- Claim C1: on a pass with no `maxHeight` style set and an existing
target item, the returned y equals the incoming y plus the candidate
offset `-item.offsetTop - reference.height/2 - item.offsetHeight/2 -
innerOffset` plus `diffY = max 0 (overflow.top)` measured at the
candidate position, and the pass sets the element's `maxHeight` style
to `max 0 (scrollHeight - diffY - max 0 overflow.bottom)` and its
`scrollTop` to `diffY`. -/
theorem inner_alignment (opts : InnerOptions)
    (detect : DetectArgs → SideObject ℚ) (args : MiddlewareArgs)
    (el : FloatingElem) (item : Item) (hmh : el.styleMaxHeight = none)
    (hitem : listItem opts.list opts.index = some item) :
    (innerFn opts detect args el).1.y =
      some (args.y +
        (-item.offsetTop - args.rects.reference.height / 2 -
          item.offsetHeight / 2 - opts.innerOffset) +
        max 0 (detect ⟨args.x,
          args.y + (-item.offsetTop - args.rects.reference.height / 2 -
            item.offsetHeight / 2 - opts.innerOffset),
          args.rects, ElemCtx.floating⟩).top) ∧
    (innerFn opts detect args el).2.floating.styleMaxHeight =
      some (max 0 (el.scrollHeight -
        max 0 (detect ⟨args.x,
          args.y + (-item.offsetTop - args.rects.reference.height / 2 -
            item.offsetHeight / 2 - opts.innerOffset),
          args.rects, ElemCtx.floating⟩).top -
        max 0 (detect ⟨args.x,
          args.y + (-item.offsetTop - args.rects.reference.height / 2 -
            item.offsetHeight / 2 - opts.innerOffset),
          args.rects, ElemCtx.floating⟩).bottom)) ∧
    (innerFn opts detect args el).2.floating.scrollTop =
      max 0 (detect ⟨args.x,
        args.y + (-item.offsetTop - args.rects.reference.height / 2 -
          item.offsetHeight / 2 - opts.innerOffset),
        args.rects, ElemCtx.floating⟩).top := by
  unfold innerFn
  rw [if_neg (by simp [hmh])]
  dsimp only
  rw [hitem]
  exact ⟨rfl, rfl, rfl⟩

/-- Witness for C1 at a concrete input: one item of height 20 at
offsetTop 0, reference height 30, detector reporting 12px top overflow
and 0 bottom overflow at the candidate position, so the candidate
offset is -25, diffY is 12, y becomes 87, maxHeight 288, scrollTop
12. -/
theorem inner_alignment_witness :
    (⟨none, 0, 300, 120, 120⟩ : FloatingElem).styleMaxHeight = none ∧
    listItem [some ⟨0, 20⟩] 0 = some ⟨0, 20⟩ ∧
    (innerFn ⟨[some ⟨0, 20⟩], 0, false, 0, false, 4, 0⟩
        (fun a => if a.elementContext = ElemCtx.floating then ⟨12, 0, 0, 0⟩
                  else ⟨-3, 0, -4, 0⟩)
        ⟨0, 100, ⟨⟨0, 0, 10, 30⟩, ⟨0, 0, 10, 300⟩⟩, true⟩
        ⟨none, 0, 300, 120, 120⟩).1.y = some 87 ∧
    (innerFn ⟨[some ⟨0, 20⟩], 0, false, 0, false, 4, 0⟩
        (fun a => if a.elementContext = ElemCtx.floating then ⟨12, 0, 0, 0⟩
                  else ⟨-3, 0, -4, 0⟩)
        ⟨0, 100, ⟨⟨0, 0, 10, 30⟩, ⟨0, 0, 10, 300⟩⟩, true⟩
        ⟨none, 0, 300, 120, 120⟩).2.floating.styleMaxHeight = some 288 ∧
    (innerFn ⟨[some ⟨0, 20⟩], 0, false, 0, false, 4, 0⟩
        (fun a => if a.elementContext = ElemCtx.floating then ⟨12, 0, 0, 0⟩
                  else ⟨-3, 0, -4, 0⟩)
        ⟨0, 100, ⟨⟨0, 0, 10, 30⟩, ⟨0, 0, 10, 300⟩⟩, true⟩
        ⟨none, 0, 300, 120, 120⟩).2.floating.scrollTop = 12 := by
  have h := inner_alignment ⟨[some ⟨0, 20⟩], 0, false, 0, false, 4, 0⟩
    (fun a => if a.elementContext = ElemCtx.floating then ⟨12, 0, 0, 0⟩
              else ⟨-3, 0, -4, 0⟩)
    ⟨0, 100, ⟨⟨0, 0, 10, 30⟩, ⟨0, 0, 10, 300⟩⟩, true⟩
    ⟨none, 0, 300, 120, 120⟩ ⟨0, 20⟩ rfl rfl
  refine ⟨rfl, rfl, ?_, ?_, ?_⟩
  · rw [h.1]; norm_num
  · rw [h.2.1]; norm_num
  · rw [h.2.2]; norm_num

/-- Claim C2: on a pass that reaches the fallback decision with the
callback supplied, the callback is invoked exactly once, with `true`
exactly when the element's rendered height is strictly below
`item.offsetHeight * min minItemsVisible (list length) - 1`, or the
reference overflow's top is at least `-referenceOverflowThreshold`, or
its bottom is. -/
theorem inner_fallback_decision (opts : InnerOptions)
    (detect : DetectArgs → SideObject ℚ) (args : MiddlewareArgs)
    (el : FloatingElem) (item : Item) (hmh : el.styleMaxHeight = none)
    (hitem : listItem opts.list opts.index = some item)
    (hcb : opts.hasOnFallbackChange = true) :
    ∃ b : Bool, (innerFn opts detect args el).2.fallbackCalls = [b] ∧
      (b = true ↔
        (el.offsetHeight <
            item.offsetHeight * min opts.minItemsVisible (opts.list.length : ℚ) - 1 ∨
          (detect ⟨args.x,
            args.y + (-item.offsetTop - args.rects.reference.height / 2 -
              item.offsetHeight / 2 - opts.innerOffset),
            args.rects, ElemCtx.reference⟩).top ≥
              -opts.referenceOverflowThreshold ∨
          (detect ⟨args.x,
            args.y + (-item.offsetTop - args.rects.reference.height / 2 -
              item.offsetHeight / 2 - opts.innerOffset),
            args.rects, ElemCtx.reference⟩).bottom ≥
              -opts.referenceOverflowThreshold)) := by
  unfold innerFn
  rw [if_neg (by simp [hmh])]
  dsimp only
  rw [hitem]
  refine ⟨_, by rw [hcb]; rfl, ?_⟩
  simp only [offsetFn, Bool.or_eq_true, decide_eq_true_eq, ge_iff_le, or_assoc]

/-- Witness for C2 at a concrete input where the fallback fires via
the height branch: rendered height 15 is strictly below
`20 * min 4 1 - 1 = 19`. -/
theorem inner_fallback_decision_witness :
    (⟨none, 0, 300, 15, 15⟩ : FloatingElem).styleMaxHeight = none ∧
    listItem [some ⟨0, 20⟩] 0 = some ⟨0, 20⟩ ∧
    (⟨[some ⟨0, 20⟩], 0, true, 0, false, 4, 0⟩ : InnerOptions).hasOnFallbackChange
      = true ∧
    (∃ b : Bool,
      (innerFn ⟨[some ⟨0, 20⟩], 0, true, 0, false, 4, 0⟩
          (fun _ => ⟨-3, 0, -4, 0⟩)
          ⟨0, 100, ⟨⟨0, 0, 10, 30⟩, ⟨0, 0, 10, 300⟩⟩, true⟩
          ⟨none, 0, 300, 15, 15⟩).2.fallbackCalls = [b] ∧
        (b = true ↔
          ((15 : ℚ) < 20 * min 4 ((1 : ℕ) : ℚ) - 1 ∨
            (-3 : ℚ) ≥ -0 ∨ (-4 : ℚ) ≥ -0))) := by
  have h := inner_fallback_decision ⟨[some ⟨0, 20⟩], 0, true, 0, false, 4, 0⟩
    (fun _ => ⟨-3, 0, -4, 0⟩)
    ⟨0, 100, ⟨⟨0, 0, 10, 30⟩, ⟨0, 0, 10, 300⟩⟩, true⟩
    ⟨none, 0, 300, 15, 15⟩ ⟨0, 20⟩ rfl rfl rfl
  exact ⟨rfl, rfl, rfl, h⟩

/-- The state read by the `useInnerOffset` wheel handler: the floating
element (`refs.floating.current`, possibly null), the Overflow Ref, the
initial-overflow snapshot and the equal-height flag. -/
structure WheelState where
  el : Option FloatingElem
  overflow : Option (SideObject ℚ)
  initialOverflow : Option (SideObject ℚ)
  equalHeight : Bool
deriving DecidableEq

/-- The observable outcome of one wheel event: whether default was
prevented, the offset updates passed to `onChange` (each `(d) => d + v`
recorded as its delta `v`, in call order), and the updated state. -/
structure WheelOut where
  prevented : Bool
  deltas : List ℚ
  state : WheelState
deriving DecidableEq

/-- The rounding-guard test on the overflow snapshot taken after mount:
`initialOverflowRef.current && (bottom >= -0.5 || top >= -0.5)`. -/
def initialAtBoundary : Option (SideObject ℚ) → Bool
  | none => false
  | some io => decide (io.bottom ≥ -(1 / 2 : ℚ)) || decide (io.top ≥ -(1 / 2 : ℚ))

/-- The `onWheel` handler of `useInnerOffset`.  `firefox` records the
result of the user-agent test; `ctrl` is `e.ctrlKey`; `dY` is
`e.deltaY`. -/
def onWheel (firefox ctrl : Bool) (dY : ℚ) (s : WheelState) : WheelOut :=
  match s.el, s.overflow with
  | some el, some o =>
    if ctrl then ⟨false, [], s⟩
    else
      let isAtTop := decide (o.top ≥ -(1 / 2 : ℚ))
      let isAtBottom := decide (o.bottom ≥ -(1 / 2 : ℚ))
      let remainingScroll := el.scrollHeight - el.clientHeight
      let sign : ℚ := if dY < 0 then -1 else 1
      let nudge := decide (el.scrollHeight = el.clientHeight) && !s.equalHeight &&
        initialAtBoundary s.initialOverflow
      let deltas0 : List ℚ := if nudge then [sign] else []
      let s1 := if nudge then {s with equalHeight := true} else s
      if el.scrollHeight ≤ el.clientHeight then ⟨false, deltas0, s1⟩
      else if (!isAtTop && decide (dY > 0)) || (!isAtBottom && decide (dY < 0)) then
        ⟨true,
         deltas0 ++ [if dY < 0 then max dY (remainingScroll * sign)
                     else min dY (remainingScroll * sign)],
         s1⟩
      else if firefox then
        ⟨false, deltas0, {s1 with el := some {el with scrollTop := el.scrollTop + dY}}⟩
      else ⟨false, deltas0, s1⟩
  | _, _ => ⟨false, [], s⟩

/-- Concrete wheel state for claim C3: scrollable content (scrollHeight
100, clientHeight 50) with Overflow Ref `{top: -5, bottom: 0}`. -/
def c3Elem : FloatingElem := ⟨none, 0, 100, 50, 50⟩

/-- Concrete wheel state for claim C3. -/
def c3State : WheelState := ⟨some c3Elem, some ⟨-5, 0, 0, 0⟩, none, false⟩

/-- Counterexample to claim C3 as stated: with Overflow Ref
`{top: -5, bottom: 0, left: 0, right: 0}` and `deltaY = -40`, the
handler (non-Firefox) does not change the external offset at all — the
sum of the offset deltas it emits is 0, not the claimed -40 — and it
does not prevent default. -/
theorem onWheel_up_at_bottom_counterexample :
    (onWheel false false (-40) c3State).deltas.sum = 0 ∧
    (onWheel false false (-40) c3State).deltas = [] ∧
    (onWheel false false (-40) c3State).prevented = false ∧
    ((0 : ℚ) ≠ -40) := by
  refine ⟨?_, ?_, ?_, by norm_num⟩ <;>
    norm_num [onWheel, c3State, c3Elem, initialAtBoundary]

/-- Claim C3 (amended): with no zoom modifier, a non-null Overflow Ref
and scrollable content, a wheel event at the top boundary
(`top ≥ -0.5`) with `deltaY > 0`, or at the bottom boundary
(`bottom ≥ -0.5`) with `deltaY < 0`, is not intercepted: default is
not prevented, no offset change is emitted, and the state is unchanged
except that on the Firefox engine `deltaY` is added to the element's
native `scrollTop`. -/
theorem onWheel_boundary_not_intercepted (firefox : Bool) (dY : ℚ)
    (s : WheelState) (el : FloatingElem) (o : SideObject ℚ)
    (hel : s.el = some el) (hov : s.overflow = some o)
    (hscroll : el.clientHeight < el.scrollHeight)
    (hdir : (o.top ≥ -(1 / 2) ∧ dY > 0) ∨ (o.bottom ≥ -(1 / 2) ∧ dY < 0)) :
    (onWheel firefox false dY s).prevented = false ∧
    (onWheel firefox false dY s).deltas = [] ∧
    (onWheel firefox false dY s).state =
      (if firefox then {s with el := some {el with scrollTop := el.scrollTop + dY}}
       else s) := by
  have hca : ¬(false = true) := by simp
  have hne : decide (el.scrollHeight = el.clientHeight) = false :=
    decide_eq_false (by intro hh; rw [hh] at hscroll; exact lt_irrefl _ hscroll)
  have hle : ¬(el.scrollHeight ≤ el.clientHeight) := not_le.mpr hscroll
  have hint : ((!decide (el.scrollHeight = el.clientHeight)) = true) := by
    rw [hne]; rfl
  have hcond : ((!decide (o.top ≥ -(1 / 2 : ℚ)) && decide (dY > 0)) ||
      (!decide (o.bottom ≥ -(1 / 2 : ℚ)) && decide (dY < 0))) = false := by
    rcases hdir with ⟨ht, hd⟩ | ⟨hb, hd⟩
    · have h1 : decide (o.top ≥ -(1 / 2 : ℚ)) = true := decide_eq_true ht
      have h2 : decide (dY < 0) = false := decide_eq_false (by linarith)
      rw [h1, h2]
      simp
    · have h1 : decide (o.bottom ≥ -(1 / 2 : ℚ)) = true := decide_eq_true hb
      have h2 : decide (dY > 0) = false := decide_eq_false (by linarith)
      rw [h1, h2]
      simp
  unfold onWheel
  rw [hel, hov]
  dsimp only
  rw [if_neg hca]
  simp only [hne, Bool.false_and, Bool.false_or, if_neg hle, hcond,
    Bool.false_eq_true, if_false]
  cases firefox
  · simp
  · simp [hov]

/-- Witness for the amended C3 at the claim's concrete input: Overflow
Ref `{top: -5, bottom: 0}`, `deltaY = -40`, non-Firefox: not
intercepted and no state change. -/
theorem onWheel_boundary_not_intercepted_witness :
    c3State.el = some c3Elem ∧
    c3State.overflow = some ⟨-5, 0, 0, 0⟩ ∧
    c3Elem.clientHeight < c3Elem.scrollHeight ∧
    ((0 : ℚ) ≥ -(1 / 2) ∧ (-40 : ℚ) < 0) ∧
    (onWheel false false (-40) c3State).prevented = false ∧
    (onWheel false false (-40) c3State).deltas = [] ∧
    (onWheel false false (-40) c3State).state = c3State := by
  have h := onWheel_boundary_not_intercepted false (-40) c3State c3Elem
    ⟨-5, 0, 0, 0⟩ rfl rfl (by norm_num [c3Elem])
    (Or.inr ⟨by norm_num, by norm_num⟩)
  refine ⟨rfl, rfl, by norm_num [c3Elem], ⟨by norm_num, by norm_num⟩,
    h.1, h.2.1, ?_⟩
  rw [h.2.2]
  simp

/-- Claim C4: whenever the wheel handler intercepts (prevents default),
it emits exactly one offset delta, equal to the wheel delta clamped to
the remaining scrollable distance — `min dY remaining` for downward
deltas, `max dY (-remaining)` for upward ones — whose magnitude never
exceeds `remaining = scrollHeight - clientHeight`. -/
theorem onWheel_clamps_to_remaining (firefox ctrl : Bool) (dY : ℚ)
    (s : WheelState) (hp : (onWheel firefox ctrl dY s).prevented = true) :
    ∃ el o, s.el = some el ∧ s.overflow = some o ∧
      0 < el.scrollHeight - el.clientHeight ∧
      (onWheel firefox ctrl dY s).deltas =
        [if dY < 0 then max dY (-(el.scrollHeight - el.clientHeight))
         else min dY (el.scrollHeight - el.clientHeight)] ∧
      |if dY < 0 then max dY (-(el.scrollHeight - el.clientHeight))
       else min dY (el.scrollHeight - el.clientHeight)| ≤
        el.scrollHeight - el.clientHeight := by
  unfold onWheel at hp ⊢
  rcases hsel : s.el with _ | el
  · rw [hsel] at hp
    exact absurd hp (by simp)
  rcases hsov : s.overflow with _ | o
  · rw [hsel, hsov] at hp
    exact absurd hp (by simp)
  rw [hsel, hsov] at hp
  dsimp only at hp ⊢
  by_cases hc : ctrl = true
  · rw [if_pos hc] at hp
    exact absurd hp (by simp)
  rw [if_neg hc] at hp ⊢
  by_cases hsc : el.scrollHeight ≤ el.clientHeight
  · rw [if_pos hsc] at hp
    exact absurd hp (by simp)
  rw [if_neg hsc] at hp ⊢
  have hne : decide (el.scrollHeight = el.clientHeight) = false :=
    decide_eq_false (fun hh => hsc (le_of_eq hh))
  simp only [hne, Bool.false_and, Bool.false_eq_true, if_false] at hp ⊢
  by_cases hcond : ((!decide (o.top ≥ -(1 / 2 : ℚ)) && decide (dY > 0)) ||
      (!decide (o.bottom ≥ -(1 / 2 : ℚ)) && decide (dY < 0))) = true
  · rw [if_pos hcond]
    have hrem : 0 < el.scrollHeight - el.clientHeight := by
      have := not_le.mp hsc
      linarith
    refine ⟨el, o, rfl, rfl, hrem, ?_, ?_⟩
    · by_cases hdy : dY < 0
      · rw [if_pos hdy, if_pos hdy, if_pos hdy, mul_neg_one]
        rfl
      · rw [if_neg hdy, if_neg hdy, if_neg hdy, mul_one]
        rfl
    · by_cases hdy : dY < 0
      · rw [if_pos hdy]
        have h1 : -(el.scrollHeight - el.clientHeight) ≤
            max dY (-(el.scrollHeight - el.clientHeight)) := le_max_right _ _
        have h2 : max dY (-(el.scrollHeight - el.clientHeight)) ≤ 0 :=
          max_le (le_of_lt hdy) (by linarith)
        rw [abs_of_nonpos h2]
        linarith
      · rw [if_neg hdy]
        have h1 : (0 : ℚ) ≤ min dY (el.scrollHeight - el.clientHeight) :=
          le_min (not_lt.mp hdy) (le_of_lt hrem)
        rw [abs_of_nonneg h1]
        exact min_le_right _ _
  · rw [if_neg hcond] at hp
    by_cases hf : firefox = true
    · rw [if_pos hf] at hp
      exact absurd hp (by simp)
    · rw [if_neg hf] at hp
      exact absurd hp (by simp)

/-- Concrete element for the C4 witness. -/
def c4Elem : FloatingElem := ⟨none, 0, 100, 50, 50⟩

/-- Concrete wheel state for the C4 witness. -/
def c4State : WheelState := ⟨some c4Elem, some ⟨-5, 0, 0, 0⟩, none, false⟩

/-- Witness for C4 at a concrete intercepted event: `deltaY = 40`,
remaining scroll 50, emitted delta `min 40 50 = 40`. -/
theorem onWheel_clamps_to_remaining_witness :
    (onWheel false false 40 c4State).prevented = true ∧
    (∃ el o, c4State.el = some el ∧ c4State.overflow = some o ∧
      0 < el.scrollHeight - el.clientHeight ∧
      (onWheel false false 40 c4State).deltas =
        [if (40 : ℚ) < 0 then max 40 (-(el.scrollHeight - el.clientHeight))
         else min 40 (el.scrollHeight - el.clientHeight)] ∧
      |if (40 : ℚ) < 0 then max 40 (-(el.scrollHeight - el.clientHeight))
       else min 40 (el.scrollHeight - el.clientHeight)| ≤
        el.scrollHeight - el.clientHeight) := by
  have hp : (onWheel false false 40 c4State).prevented = true := by
    norm_num [onWheel, c4State, c4Elem, initialAtBoundary]
  exact ⟨hp, onWheel_clamps_to_remaining false false 40 c4State hp⟩

/-- The boundary guard of the touch controller's `scroll(y)` helper:
moving is refused when the target would decrease the offset while the
top side has clearance, or increase it while the bottom side has
clearance. -/
def scrollBlocked {α : Type} [LinearOrderedField α]
    (o : SideObject α) (offset y : α) : Prop :=
  (o.top < -(1 / 2) ∧ y < offset) ∨ (o.bottom < -(1 / 2) ∧ y > offset)

instance {α : Type} [LinearOrderedField α] (o : SideObject α) (offset y : α) :
    Decidable (scrollBlocked o offset y) := by
  unfold scrollBlocked
  infer_instance

/-- The touch controller's `scroll(y)`: when the overflow ref and the
element are present and the move is not blocked, the offset becomes `y`
and one `onChange(offset)` call is made; otherwise nothing happens. -/
def scrollFn {α : Type} [LinearOrderedField α]
    (ov : Option (SideObject α)) (hasEl : Bool) (offset y : α) : α × List α :=
  match ov with
  | some o =>
    if hasEl then
      if scrollBlocked o offset y then (offset, []) else (y, [y])
    else (offset, [])
  | none => (offset, [])

/-- `isExpandable()`: the overflow ref is present and at least one of
its vertical sides is nonzero. -/
def isExpandable (ov : Option (SideObject ℚ)) : Bool :=
  match ov with
  | some o => decide (o.top ≠ 0) || decide (o.bottom ≠ 0)
  | none => false

/-- The local gesture state of the touch momentum controller that the
`drag` handler reads and writes. -/
structure TouchGesture where
  pressed : Bool
  cancel : Bool
  reference : ℚ
  offset : ℚ
deriving DecidableEq

/-- The observable outcome of one `touchmove` (`drag`) event:
the updated gesture state, the `onChange` calls made (absolute offset
values, in order), and whether default was prevented and propagation
stopped. -/
structure DragOut where
  state : TouchGesture
  changes : List ℚ
  prevented : Bool
  stopped : Bool
deriving DecidableEq

/-- The `drag` handler of `useTouchMomentumExpandOffset`: `y` is the
pointer position `yPos(e)`, `cancelable` is `e.cancelable`, `hasEl`
records that the captured floating element is non-null. -/
def drag (ov : Option (SideObject ℚ)) (hasEl : Bool) (y : ℚ)
    (cancelable : Bool) (s : TouchGesture) : DragOut :=
  let moved :=
    if s.pressed && !s.cancel then
      let delta := s.reference - y
      if delta > 2 ∨ delta < -2 then
        let res := scrollFn ov hasEl s.offset (s.offset + delta)
        ({s with reference := y, offset := res.1}, res.2)
      else (s, [])
    else (s, [])
  let pd := isExpandable ov && cancelable && !s.cancel
  ⟨moved.1, moved.2, pd, pd⟩

/-- Claim C8: for a touch move while pressed and not cancelled, with
the overflow ref and element present: if the pointer moved more than
2px from the reference point, the reference point becomes the pointer
position and the offset is shifted by the delta unless the overflow-ref
signs block the move; and whenever the content has scrollable overflow
and the event is cancelable, default is prevented and propagation
stopped. -/
theorem drag_moves_and_prevents (ov : Option (SideObject ℚ))
    (o : SideObject ℚ) (y : ℚ) (cancelable : Bool) (s : TouchGesture)
    (hov : ov = some o) (hp : s.pressed = true) (hc : s.cancel = false) :
    ((s.reference - y > 2 ∨ s.reference - y < -2) →
      (drag ov true y cancelable s).state.reference = y ∧
      (drag ov true y cancelable s).state.offset =
        (if (o.top < -(1 / 2) ∧ s.reference - y < 0) ∨
            (o.bottom < -(1 / 2) ∧ s.reference - y > 0) then s.offset
         else s.offset + (s.reference - y))) ∧
    ((isExpandable ov = true ∧ cancelable = true) →
      (drag ov true y cancelable s).prevented = true ∧
      (drag ov true y cancelable s).stopped = true) := by
  subst hov
  constructor
  · intro hmove
    have hblock : scrollBlocked o s.offset (s.offset + (s.reference - y)) ↔
        ((o.top < -(1 / 2) ∧ s.reference - y < 0) ∨
          (o.bottom < -(1 / 2) ∧ s.reference - y > 0)) := by
      unfold scrollBlocked
      constructor
      · rintro (⟨h1, h2⟩ | ⟨h1, h2⟩)
        · exact Or.inl ⟨h1, by linarith⟩
        · exact Or.inr ⟨h1, by linarith⟩
      · rintro (⟨h1, h2⟩ | ⟨h1, h2⟩)
        · exact Or.inl ⟨h1, by linarith⟩
        · exact Or.inr ⟨h1, by linarith⟩
    unfold drag scrollFn
    rw [hp, hc]
    simp only [Bool.not_false, Bool.and_self, if_true, if_pos hmove]
    by_cases hb : scrollBlocked o s.offset (s.offset + (s.reference - y))
    · rw [if_pos hb, if_pos (hblock.mp hb)]
      exact ⟨trivial, rfl⟩
    · rw [if_neg hb, if_neg (fun hh => hb (hblock.mpr hh))]
      exact ⟨trivial, rfl⟩
  · rintro ⟨hexp, hcble⟩
    unfold drag
    rw [hexp, hcble, hc]
    constructor <;> rfl

/-- Witness for C8 at a concrete input: pressed gesture at reference
100, pointer at 90 (delta 10 > 2), overflow `{top: 0, bottom: -3}`
(expandable, bottom clearance blocks the increase), cancelable. -/
theorem drag_moves_and_prevents_witness :
    (some ⟨0, 0, -3, 0⟩ : Option (SideObject ℚ)) = some ⟨0, 0, -3, 0⟩ ∧
    (⟨true, false, 100, 7⟩ : TouchGesture).pressed = true ∧
    (⟨true, false, 100, 7⟩ : TouchGesture).cancel = false ∧
    ((((100 : ℚ) - 90 > 2 ∨ (100 : ℚ) - 90 < -2) →
      (drag (some ⟨0, 0, -3, 0⟩) true 90 true ⟨true, false, 100, 7⟩).state.reference = 90 ∧
      (drag (some ⟨0, 0, -3, 0⟩) true 90 true ⟨true, false, 100, 7⟩).state.offset =
        (if ((0 : ℚ) < -(1 / 2) ∧ (100 : ℚ) - 90 < 0) ∨
            ((-3 : ℚ) < -(1 / 2) ∧ (100 : ℚ) - 90 > 0) then (7 : ℚ)
         else 7 + (100 - 90))) ∧
      ((isExpandable (some ⟨0, 0, -3, 0⟩) = true ∧ true = true) →
        (drag (some ⟨0, 0, -3, 0⟩) true 90 true ⟨true, false, 100, 7⟩).prevented = true ∧
        (drag (some ⟨0, 0, -3, 0⟩) true 90 true ⟨true, false, 100, 7⟩).stopped = true)) :=
  ⟨rfl, rfl, rfl,
    drag_moves_and_prevents (some ⟨0, 0, -3, 0⟩) ⟨0, 0, -3, 0⟩ 90 true
      ⟨true, false, 100, 7⟩ rfl rfl rfl⟩

/-- The kinds of DOM event listener the two controllers register. -/
inductive ListenerKind
  | touchstart
  | touchmove
  | touchend
  | wheel
deriving DecidableEq

/-- The browser-side resources a controller owns: its pending
animation-frame handles and its registered listeners. -/
structure Resources where
  frames : List ℕ
  nextHandle : ℕ
  listeners : List ListenerKind
deriving DecidableEq

/-- `requestAnimationFrame`: returns a fresh handle and records the
pending callback. -/
def rafRequest (r : Resources) : ℕ × Resources :=
  (r.nextHandle, ⟨r.nextHandle :: r.frames, r.nextHandle + 1, r.listeners⟩)

/-- `cancelAnimationFrame(h)`: the pending callback with handle `h`, if
any, will not fire. -/
def rafCancel (h : ℕ) (r : Resources) : Resources :=
  {r with frames := r.frames.filter (fun x => x ≠ h)}

/-- `addEventListener`. -/
def addListener (l : ListenerKind) (r : Resources) : Resources :=
  {r with listeners := l :: r.listeners}

/-- `removeEventListener`. -/
def removeListener (l : ListenerKind) (r : Resources) : Resources :=
  {r with listeners := r.listeners.filter (fun x => x ≠ l)}

/-- The resource-relevant state of the touch momentum controller's
effect: the stored `ticker` and `autoScroll` frame handles and the
resources it holds. -/
structure TouchCtl where
  ticker : ℕ
  autoScroll : ℕ
  res : Resources
deriving DecidableEq

/-- Effect setup of `useTouchMomentumExpandOffset` (open, element
present): registers the three touch listeners; `ticker` and
`autoScroll` start at 0 (no frame scheduled yet). -/
def touchSetup (r : Resources) : TouchCtl :=
  ⟨0, 0, addListener ListenerKind.touchend
    (addListener ListenerKind.touchmove (addListener ListenerKind.touchstart r))⟩

/-- Effect cleanup of `useTouchMomentumExpandOffset`: cancels the
stored `ticker` and `autoScroll` handles and removes the three touch
listeners. -/
def touchCleanup (c : TouchCtl) : Resources :=
  removeListener ListenerKind.touchend
    (removeListener ListenerKind.touchmove
      (removeListener ListenerKind.touchstart
        (rafCancel c.autoScroll (rafCancel c.ticker c.res))))

/-- The resource-relevant state of the `useInnerOffset` wheel effect:
the handle of the post-mount scroll-baseline capture frame and the
resources it holds. -/
structure WheelCtl where
  baseline : ℕ
  res : Resources
deriving DecidableEq

/-- Effect setup of the `useInnerOffset` wheel effect (open, element
present): registers the wheel listener and schedules the post-mount
scroll-baseline capture frame; its handle is not stored anywhere the
cleanup could reach. -/
def wheelSetup (r : Resources) : WheelCtl :=
  let r1 := addListener ListenerKind.wheel r
  let hr := rafRequest r1
  ⟨hr.1, hr.2⟩

/-- Effect cleanup of the `useInnerOffset` wheel effect: resets the
refs and removes the wheel listener; it cancels no animation frame. -/
def wheelCleanup (c : WheelCtl) : Resources :=
  removeListener ListenerKind.wheel c.res

/-- A fresh resource pool (browsers issue positive frame handles). -/
def emptyResources : Resources := ⟨[], 1, []⟩

/-- Counterexample to claim C9 as stated: setting up the wheel effect
and immediately tearing it down leaves the post-mount scroll-baseline
capture frame pending — the cleanup removes the wheel listener but
cancels no animation frame, so not every scheduled frame callback is
cancelled. -/
theorem wheel_cleanup_leaks_baseline_frame :
    (wheelCleanup (wheelSetup emptyResources)).frames = [1] ∧
    ([1] : List ℕ) ≠ [] ∧
    (wheelSetup emptyResources).baseline = 1 := by
  refine ⟨rfl, by simp, rfl⟩

/-- Claim C9 (amended): on teardown the touch controller cancels the
stored velocity-ticker and momentum auto-scroll frame handles — so if
every pending touch-controller frame is one of the stored handles,
none survives — and removes the three touch listeners; the wheel
effect's cleanup removes the wheel listener but cancels no frame, so
the post-mount scroll-baseline capture frame survives teardown
unchanged. -/
theorem cleanup_cancels_tracked_frames (c : TouchCtl) (w : WheelCtl)
    (hframes : ∀ h ∈ c.res.frames, h = c.ticker ∨ h = c.autoScroll) :
    (touchCleanup c).frames = [] ∧
    ListenerKind.touchstart ∉ (touchCleanup c).listeners ∧
    ListenerKind.touchmove ∉ (touchCleanup c).listeners ∧
    ListenerKind.touchend ∉ (touchCleanup c).listeners ∧
    ListenerKind.wheel ∉ (wheelCleanup w).listeners ∧
    (wheelCleanup w).frames = w.res.frames := by
  refine ⟨?_, ?_, ?_, ?_, ?_, rfl⟩
  · have : (touchCleanup c).frames =
        (c.res.frames.filter (fun x => x ≠ c.ticker)).filter
          (fun x => x ≠ c.autoScroll) := rfl
    rw [this]
    rw [List.eq_nil_iff_forall_not_mem]
    intro h hmem
    rw [List.mem_filter] at hmem
    obtain ⟨hmem1, hauto⟩ := hmem
    rw [List.mem_filter] at hmem1
    obtain ⟨hmem0, htick⟩ := hmem1
    rcases hframes h hmem0 with hh | hh
    · rw [hh] at htick
      simp at htick
    · rw [hh] at hauto
      simp at hauto
  · intro hmem
    have := (List.mem_filter.mp
      (List.mem_filter.mp (List.mem_filter.mp hmem).1).1).2
    simp at this
  · intro hmem
    have := (List.mem_filter.mp (List.mem_filter.mp hmem).1).2
    simp at this
  · intro hmem
    have := (List.mem_filter.mp hmem).2
    simp at this
  · intro hmem
    have := (List.mem_filter.mp hmem).2
    simp at this

/-- Witness for the amended C9 at a concrete state: ticker handle 3 and
auto-scroll handle 7 both pending, the three touch listeners and the
wheel effect's state from a fresh setup. -/
theorem cleanup_cancels_tracked_frames_witness :
    (∀ h ∈ (⟨3, 7, ⟨[3, 7], 8,
        [ListenerKind.touchstart, ListenerKind.touchmove,
         ListenerKind.touchend]⟩⟩ : TouchCtl).res.frames,
      h = 3 ∨ h = 7) ∧
    (touchCleanup ⟨3, 7, ⟨[3, 7], 8,
        [ListenerKind.touchstart, ListenerKind.touchmove,
         ListenerKind.touchend]⟩⟩).frames = [] ∧
    ListenerKind.touchstart ∉ (touchCleanup ⟨3, 7, ⟨[3, 7], 8,
        [ListenerKind.touchstart, ListenerKind.touchmove,
         ListenerKind.touchend]⟩⟩).listeners ∧
    ListenerKind.touchmove ∉ (touchCleanup ⟨3, 7, ⟨[3, 7], 8,
        [ListenerKind.touchstart, ListenerKind.touchmove,
         ListenerKind.touchend]⟩⟩).listeners ∧
    ListenerKind.touchend ∉ (touchCleanup ⟨3, 7, ⟨[3, 7], 8,
        [ListenerKind.touchstart, ListenerKind.touchmove,
         ListenerKind.touchend]⟩⟩).listeners ∧
    ListenerKind.wheel ∉ (wheelCleanup (wheelSetup emptyResources)).listeners ∧
    (wheelCleanup (wheelSetup emptyResources)).frames =
      (wheelSetup emptyResources).res.frames := by
  have hframes : ∀ h ∈ (⟨3, 7, ⟨[3, 7], 8,
      [ListenerKind.touchstart, ListenerKind.touchmove,
       ListenerKind.touchend]⟩⟩ : TouchCtl).res.frames, h = 3 ∨ h = 7 := by
    decide
  exact ⟨hframes, cleanup_cancels_tracked_frames _ (wheelSetup emptyResources) hframes⟩

/-- The per-frame momentum delta: `-amplitude * Math.exp(-elapsed /
timeConstant)` with `timeConstant = 325`. -/
noncomputable def decayDelta (amplitude elapsed : ℝ) : ℝ :=
  -amplitude * Real.exp (-elapsed / 325)

/-- How an `autoScrollFrame` invocation ends the loop:
`guard` (the `amplitude && !cancel && overflowRef.current` guard failed,
nothing scheduled), a snap to the top or bottom boundary, or the final
snap to the target when the delta has decayed below half a pixel. -/
inductive StopKind
  | guard
  | topSnap
  | bottomSnap
  | targetSnap
deriving DecidableEq

/-- The outcome of one `autoScrollFrame` call: stop (no further frame
scheduled) with the final offset, or continue into the next frame. -/
inductive FrameStep
  | stop (kind : StopKind) (offset : ℝ)
  | next (offset : ℝ)

/-- One `autoScrollFrame` invocation at elapsed time `elapsed` since
release, with the current overflow ref, cancel flag, amplitude, target
and offset. -/
noncomputable def autoScrollFrame (ov : Option (SideObject ℝ)) (cancel : Bool)
    (amplitude target elapsed offset : ℝ) : FrameStep :=
  match ov with
  | none => FrameStep.stop StopKind.guard offset
  | some o =>
    if amplitude = 0 ∨ cancel = true then FrameStep.stop StopKind.guard offset
    else
      let delta := decayDelta amplitude elapsed
      if delta > 0 ∧ o.top < -(1 / 2) then
        FrameStep.stop StopKind.topSnap (offset - o.top)
      else if delta < 0 ∧ o.bottom < -(1 / 2) then
        FrameStep.stop StopKind.bottomSnap (offset + o.bottom)
      else if delta > 1 / 2 ∨ delta < -(1 / 2) then
        FrameStep.next (scrollFn (some o) true offset (target + delta)).1
      else FrameStep.stop StopKind.targetSnap (scrollFn (some o) true offset target).1

/-- The momentum loop run from frame index `k` with the given fuel:
`times n` is the elapsed time at the n-th scheduled frame, `ov n` and
`cancel n` the overflow ref and cancel flag it observes.  Returns the
stop kind and final offset if the loop stops within `fuel` frames. -/
noncomputable def momentumRun (ov : ℕ → Option (SideObject ℝ))
    (cancel : ℕ → Bool) (amplitude target : ℝ) (times : ℕ → ℝ) :
    ℕ → ℕ → ℝ → Option (StopKind × ℝ)
  | _, 0, _ => none
  | k, fuel + 1, offset =>
    match autoScrollFrame (ov k) (cancel k) amplitude target (times k) offset with
    | FrameStep.stop kind o => some (kind, o)
    | FrameStep.next o =>
      momentumRun ov cancel amplitude target times (k + 1) fuel o

/-- The `release` (touchend) handler's momentum start: when the tracked
velocity exceeds 5 in magnitude, amplitude is `0.8 * velocity` and the
target is `Math.round(offset + amplitude)`. -/
noncomputable def releaseStart (velocity offset : ℝ) : Option (ℝ × ℝ) :=
  if velocity > 5 ∨ velocity < -5 then
    some (0.8 * velocity, ((round (offset + 0.8 * velocity) : ℤ) : ℝ))
  else none

lemma autoScrollFrame_stops_of_small (o : SideObject ℝ) (cancel : Bool)
    (amplitude target elapsed offset : ℝ)
    (hsmall : |decayDelta amplitude elapsed| ≤ 1 / 2) :
    ∃ kind off, autoScrollFrame (some o) cancel amplitude target elapsed offset =
      FrameStep.stop kind off := by
  obtain ⟨hlo, hhi⟩ := abs_le.mp hsmall
  simp only [autoScrollFrame]
  split_ifs with h1 h2 h3 h4
  · exact ⟨_, _, rfl⟩
  · exact ⟨_, _, rfl⟩
  · exact ⟨_, _, rfl⟩
  · rcases h4 with h | h
    · exact absurd hhi (by simpa using h)
    · exact absurd hlo (by simp only [not_le]; linarith)
  · exact ⟨_, _, rfl⟩

lemma autoScrollFrame_not_guard (o : SideObject ℝ)
    (amplitude target elapsed offset : ℝ) (hA : amplitude ≠ 0)
    (kind : StopKind) (off : ℝ)
    (h : autoScrollFrame (some o) false amplitude target elapsed offset =
      FrameStep.stop kind off) : kind ≠ StopKind.guard := by
  simp only [autoScrollFrame] at h
  rw [if_neg (by simp [hA])] at h
  split_ifs at h <;> first
    | (cases h; decide)
    | cases h

lemma momentumRun_stops (ov : ℕ → Option (SideObject ℝ)) (cancel : ℕ → Bool)
    (amplitude target : ℝ) (times : ℕ → ℝ) :
    ∀ fuel k offset,
      (∀ off2, ∃ kind off3,
        autoScrollFrame (ov (k + fuel)) (cancel (k + fuel)) amplitude target
          (times (k + fuel)) off2 = FrameStep.stop kind off3) →
      (∀ m off2 kind off3,
        autoScrollFrame (ov m) (cancel m) amplitude target (times m) off2 =
          FrameStep.stop kind off3 → kind ≠ StopKind.guard) →
      ∃ kind off,
        momentumRun ov cancel amplitude target times k (fuel + 1) offset =
          some (kind, off) ∧ kind ≠ StopKind.guard := by
  intro fuel
  induction fuel with
  | zero =>
    intro k offset hstop hng
    obtain ⟨kind, off3, hh⟩ := hstop offset
    rw [Nat.add_zero] at hh
    refine ⟨kind, off3, ?_, hng k offset kind off3 hh⟩
    simp only [momentumRun]
    rw [hh]
  | succ fuel ih =>
    intro k offset hstop hng
    cases hstep : autoScrollFrame (ov k) (cancel k) amplitude target (times k) offset with
    | stop kind o =>
      refine ⟨kind, o, ?_, hng k offset kind o hstep⟩
      simp only [momentumRun]
      rw [hstep]
    | next o =>
      obtain ⟨kind, off, hrun, hkind⟩ := ih (k + 1) o
        (by
          intro off2
          have hh := hstop off2
          rwa [show k + (fuel + 1) = k + 1 + fuel by omega] at hh)
        hng
      refine ⟨kind, off, ?_, hkind⟩
      simp only [momentumRun]
      rw [hstep]
      exact hrun

lemma times_lower_bound (times : ℕ → ℝ) (gap : ℝ) (h0 : 0 ≤ times 0)
    (hstep : ∀ n, times n + gap ≤ times (n + 1)) :
    ∀ n : ℕ, (n : ℝ) * gap ≤ times n := by
  intro n
  induction n with
  | zero => simpa using h0
  | succ n ih =>
    have h := hstep n
    have hc : ((n : ℝ) + 1) * gap = (n : ℝ) * gap + gap := by ring
    push_cast
    rw [hc]
    linarith

lemma decayDelta_abs (amplitude t : ℝ) :
    |decayDelta amplitude t| = |amplitude| * Real.exp (-t / 325) := by
  unfold decayDelta
  rw [abs_mul, abs_neg, abs_of_pos (Real.exp_pos _)]

lemma exp_neg_le_inv_one_add (x : ℝ) (hx : 0 ≤ x) :
    Real.exp (-x) ≤ (1 + x)⁻¹ := by
  rw [Real.exp_neg]
  have h1 : (0 : ℝ) < 1 + x := by linarith
  have h2 : 1 + x ≤ Real.exp x := by
    have h3 := Real.add_one_le_exp x
    linarith
  exact inv_le_inv_of_le h1 h2

lemma decayDelta_small (amplitude gap t : ℝ) (hgap : 0 < gap) (N : ℕ)
    (hN : 650 * |amplitude| / gap ≤ (N : ℝ)) (ht : (N : ℝ) * gap ≤ t) :
    |decayDelta amplitude t| ≤ 1 / 2 := by
  rw [decayDelta_abs]
  have habs : (0 : ℝ) ≤ |amplitude| := abs_nonneg _
  have hx0 : (0 : ℝ) ≤ (N : ℝ) * gap / 325 := by positivity
  have hu : (0 : ℝ) < 1 + (N : ℝ) * gap / 325 := by linarith
  have h650 : 650 * |amplitude| ≤ (N : ℝ) * gap := (div_le_iff hgap).mp hN
  have hmono : Real.exp (-t / 325) ≤ Real.exp (-((N : ℝ) * gap) / 325) :=
    Real.exp_le_exp.mpr (by linarith)
  have hexp : Real.exp (-((N : ℝ) * gap) / 325) ≤ (1 + (N : ℝ) * gap / 325)⁻¹ := by
    rw [neg_div]
    exact exp_neg_le_inv_one_add _ hx0
  calc |amplitude| * Real.exp (-t / 325)
      ≤ |amplitude| * (1 + (N : ℝ) * gap / 325)⁻¹ :=
        mul_le_mul_of_nonneg_left (le_trans hmono hexp) habs
    _ ≤ 1 / 2 := by
        rw [← div_eq_mul_inv, div_le_iff hu]
        linarith

/-- Claim C7: for every touch release with tracked velocity of
magnitude above 5, the momentum loop starts with amplitude
`0.8 * velocity` and target `round(offset + amplitude)`, and — as long
as the overflow ref stays present, the gesture is not cancelled and
successive frames are at least `gap > 0` milliseconds apart — it
terminates within `ceil(650 * |amplitude| / gap) + 1` simulated frames,
stopping by a boundary snap or by the final target snap (never by the
guard). -/
theorem momentum_decay_terminates (velocity offset0 : ℝ)
    (ov : ℕ → SideObject ℝ) (times : ℕ → ℝ) (gap : ℝ)
    (hv : velocity > 5 ∨ velocity < -5) (hgap : 0 < gap)
    (h0 : 0 ≤ times 0) (hstep : ∀ n, times n + gap ≤ times (n + 1)) :
    ∃ amplitude target,
      releaseStart velocity offset0 = some (amplitude, target) ∧
      ∃ kind finalOffset,
        momentumRun (fun n => some (ov n)) (fun _ => false) amplitude target
            times 0 (Nat.ceil (650 * |amplitude| / gap) + 1) offset0 =
          some (kind, finalOffset) ∧ kind ≠ StopKind.guard := by
  have hA : (0.8 * velocity : ℝ) ≠ 0 := by
    rcases hv with h | h
    · exact ne_of_gt (by nlinarith)
    · exact ne_of_lt (by nlinarith)
  refine ⟨0.8 * velocity, ((round (offset0 + 0.8 * velocity) : ℤ) : ℝ), ?_, ?_⟩
  · unfold releaseStart
    rw [if_pos hv]
  · apply momentumRun_stops
    · intro off2
      apply autoScrollFrame_stops_of_small
      apply decayDelta_small (0.8 * velocity) gap _ hgap
        (Nat.ceil (650 * |0.8 * velocity| / gap)) (Nat.le_ceil _)
      rw [Nat.zero_add]
      exact times_lower_bound times gap h0 hstep _
    · intro m off2 kind off3 hmm
      exact autoScrollFrame_not_guard _ _ _ _ _ hA kind off3 hmm

/-- Witness for C7 at a concrete release: velocity 10 (amplitude 8),
frames 16ms apart, overflow ref constantly zero. -/
theorem momentum_decay_terminates_witness :
    ((10 : ℝ) > 5 ∨ (10 : ℝ) < -5) ∧ (0 : ℝ) < 16 ∧
    (0 : ℝ) ≤ ((0 : ℕ) : ℝ) * 16 ∧
    (∀ n : ℕ, (n : ℝ) * 16 + 16 ≤ ((n + 1 : ℕ) : ℝ) * 16) ∧
    (∃ amplitude target,
      releaseStart 10 0 = some (amplitude, target) ∧
      ∃ kind finalOffset,
        momentumRun (fun _ => some ⟨0, 0, 0, 0⟩) (fun _ => false) amplitude
            target (fun n : ℕ => (n : ℝ) * 16) 0
            (Nat.ceil (650 * |amplitude| / 16) + 1) 0 =
          some (kind, finalOffset) ∧ kind ≠ StopKind.guard) := by
  have hstep : ∀ n : ℕ, ((n : ℝ)) * 16 + 16 ≤ ((n + 1 : ℕ) : ℝ) * 16 := by
    intro n
    push_cast
    linarith
  refine ⟨Or.inl (by norm_num), by norm_num, by norm_num, hstep, ?_⟩
  exact momentum_decay_terminates 10 0 (fun _ => ⟨0, 0, 0, 0⟩)
    (fun n : ℕ => (n : ℝ) * 16) 16 (Or.inl (by norm_num)) (by norm_num)
    (by norm_num) hstep
